import Mathlib

/-!
Shallow embedding of the core components of the voice habit tracker, translated
from the JavaScript sources:

* `TTSService` (multi-provider speech-output dispatcher with one-hop
  failover) from `src/motivational-prompts.js`;
* `DailyHabitTracker` (the voice check-in state machine) from
  `src/unnamed/part_001`;
* `VoiceGoalsInput` (goal capture, transcript segmentation, confirmation
  flow and week-start computation) from `src/voice-goals-input.js`.

State is passed explicitly; the observable effects of each handler
(speaking, starting recognition, invoking callbacks, network submission)
are returned as explicit action lists.
-/

namespace Captain

/-! ## TTSService (src/motivational-prompts.js)

The dispatcher holds `providerNames` (we keep only its length `numProviders`),
`currentProviderIndex` and `isPlaying`.  A provider attempt is abstracted by
`fail : Nat -> Option eps`: `fail i = none` means the awaited
`provider.speak` call for provider `i` settles successfully, `fail i = some e`
means it rejects with error `e`.  (For audio-element providers a playback
error surfaces through the `onError` callback, not as a rejection of
`provider.speak`; the failover logic in `speak` reacts only to rejections,
which is what `fail` models.) -/

structure TTSState where
  numProviders : Nat
  currentProviderIndex : Nat
  isPlaying : Bool
  deriving Repr, DecidableEq

/-- Errors observable from one `speak` call: either the current provider was
`undefined` (`tryCurrentProvider` throws `No TTS provider available`) or the
provider attempt rejected with a provider error. -/
inductive TTSErr (eps : Type) where
  | noProvider : TTSErr eps
  | provider : eps → TTSErr eps
  deriving Repr, DecidableEq

/-- Outcome of one `speak(text)` call.  `rejected` means the returned promise
rejects (only the two argument guards do this); `resolved` means it resolves
with the success callback path taken; `resolvedErr e` means it resolves after
invoking the user `onError` callback with `e`. -/
inductive SpeakResult (eps : Type) where
  | rejected : String → SpeakResult eps
  | resolved : SpeakResult eps
  | resolvedErr : TTSErr eps → SpeakResult eps
  deriving Repr, DecidableEq

/-- Source method `switchToNextProvider`: returns `false` and leaves the state unchanged
when at most one provider is registered; otherwise advances
`currentProviderIndex` circularly and returns `true`. -/
def switchToNextProvider (s : TTSState) : Bool × TTSState :=
  if s.numProviders ≤ 1 then (false, s)
  else (true, { s with
    currentProviderIndex := (s.currentProviderIndex + 1) % s.numProviders })

/-- One attempt of `tryCurrentProvider`: if the index is out of range the
provider lookup yields `undefined` and the call throws `noProvider`;
otherwise the attempt rejects iff `fail` says so. -/
def attemptCurrent {eps : Type} (fail : Nat → Option eps) (s : TTSState) :
    Option (TTSErr eps) :=
  if s.currentProviderIndex < s.numProviders then
    (fail s.currentProviderIndex).map TTSErr.provider
  else some TTSErr.noProvider

/-- Source method `TTSService.speak(text)`: guards for empty text and zero providers reject;
otherwise `stop()` is called, `isPlaying` is set, and the current provider is
attempted.  On rejection of that attempt, if `switchToNextProvider()`
succeeds the new current provider is attempted exactly once more; a second
rejection clears `isPlaying` and surfaces the second error through `onError`
(the promise itself resolves).  The middle component lists the indices of the
providers attempted, in order. -/
def speak {eps : Type} (textEmpty : Bool) (fail : Nat → Option eps)
    (s : TTSState) : SpeakResult eps × List Nat × TTSState :=
  if textEmpty then (SpeakResult.rejected "No text provided for speech", [], s)
  else if s.numProviders = 0 then
    (SpeakResult.rejected "No TTS providers available", [], s)
  else
    -- this.stop(); this.isPlaying = true;
    let s1 : TTSState := { s with isPlaying := true }
    let i := s1.currentProviderIndex
    match attemptCurrent fail s1 with
    | none =>
        -- success: provider completion callback clears isPlaying
        (SpeakResult.resolved, [i], { s1 with isPlaying := false })
    | some e1 =>
        match switchToNextProvider s1 with
        | (false, s2) =>
            (SpeakResult.resolvedErr e1, [i], { s2 with isPlaying := false })
        | (true, s2) =>
            let j := s2.currentProviderIndex
            match attemptCurrent fail s2 with
            | none =>
                (SpeakResult.resolved, [i, j], { s2 with isPlaying := false })
            | some e2 =>
                (SpeakResult.resolvedErr e2, [i, j],
                  { s2 with isPlaying := false })

/-! ## String helpers mirroring the JavaScript string operations used by
the sources (`String.prototype.includes`, regex scans). -/

/-- Does `pat` occur at the start of `hay`?  (Character lists.) -/
def startsWithL : List Char → List Char → Bool
  | [], _ => true
  | _ :: _, [] => false
  | p :: ps, c :: cs => p = c && startsWithL ps cs

/-- JavaScript `hay.includes(pat)` on character lists: `pat` occurs contiguously
somewhere in `hay`. -/
def includesL (pat : List Char) : List Char → Bool
  | [] => pat.isEmpty
  | hay@(_ :: rest) => startsWithL pat hay || includesL pat rest

/-- JavaScript `String.prototype.includes`. -/
def strIncludes (s pat : String) : Bool :=
  includesL pat.data s.data

/-! ## Check-in response classification
(`DailyHabitTracker.handleSpeechResult`, src/unnamed/part_001)

The handler lowercases and trims the transcript and then tests, in order,
the affirmative markers, the negative markers and the skip marker by
substring containment. -/

inductive HabitResponse where
  | yes
  | no
  | skip
  deriving Repr, DecidableEq

/-- Classification of an already trimmed-and-lowercased transcript, exactly
as in `handleSpeechResult`: affirmative markers first, then negative, then
skip; `none` means the response is unrecognized (ambiguous). -/
def classifyTranscript (t : String) : Option HabitResponse :=
  if strIncludes t "yes" || strIncludes t "yeah" || strIncludes t "yep" then
    some HabitResponse.yes
  else if strIncludes t "no" || strIncludes t "nope" || strIncludes t "nah" then
    some HabitResponse.no
  else if strIncludes t "skip" then
    some HabitResponse.skip
  else none

/-- JavaScript `String.prototype.trim` on character lists (whitespace
stripped from both ends; ASCII whitespace, which covers every transcript
this application sees). -/
def trimL (l : List Char) : List Char :=
  ((l.dropWhile Char.isWhitespace).reverse.dropWhile Char.isWhitespace).reverse

/-- JavaScript `String.prototype.toLowerCase` on character lists (ASCII). -/
def toLowerL (l : List Char) : List Char :=
  l.map Char.toLower

/-- The normalization `handleSpeechResult` applies to the raw transcript:
`transcript.trim().toLowerCase()`. -/
def normalizeTranscript (t : String) : String :=
  String.mk (toLowerL (trimL t.data))

/-! ## Transcript-to-goals segmentation
(`VoiceGoalsInput.processTranscriptIntoGoals`, src/voice-goals-input.js)

The JavaScript uses a handful of regexes.  Each one is embedded as a direct
character-list scanner with the same greedy, leftmost, non-overlapping
semantics (none of the patterns needs backtracking: every quantified class
is disjoint from the character that can follow it). -/

/-- Case-insensitive ASCII comparison of a (lowercase) pattern against the
start of a list. -/
def startsWithCI : List Char → List Char → Bool
  | [], _ => true
  | _ :: _, [] => false
  | p :: ps, c :: cs => (c.toLower = p) && startsWithCI ps cs

/-- Is the head of the list a numeric-marker punctuation mark? -/
def headIsMarkerPunct : List Char → Bool
  | b :: _ => b = '.' || b = ')'
  | [] => false

/-- The test `/\d+[\.\)]/.test(transcript)`: some digit is immediately
followed by `.` or `)`. -/
def hasNumberMarker : List Char → Bool
  | [] => false
  | a :: rest => (a.isDigit && headIsMarkerPunct rest) || hasNumberMarker rest

/-- A character matched by `[^,\.\d\)]` (the second capture group of the
numbered-goal regex). -/
def isBodyChar (c : Char) : Bool :=
  !(c = ',' || c = '.' || c.isDigit || c = ')')

/-- Match `(\d+[\.\)])([^,\.\d\)]+)` at the start of the list, returning the
matched characters and the remainder. -/
def matchNumbered (l : List Char) : Option (List Char × List Char) :=
  let ds := l.takeWhile Char.isDigit
  if ds.isEmpty then none else
  match l.drop ds.length with
  | [] => none
  | p :: r2 =>
    if p = '.' || p = ')' then
      let body := r2.takeWhile isBodyChar
      if body.isEmpty then none
      else some (ds ++ p :: body, r2.drop body.length)
    else none

/-- Global-regex replacement
`transcript.replace(/(\d+[\.\)])([^,\.\d\)]+)/g, "___SPLIT___$1$2")` (the
source writes the replacement in single quotes):
scan left to right, prepending the split mark to every match.  `fuel` bounds
the number of scan steps (each step consumes at least one character). -/
def replaceNumberedAux (splitMark : List Char) : Nat → List Char → List Char
  | 0, l => l
  | _ + 1, [] => []
  | fuel + 1, l@(c :: rest) =>
    match matchNumbered l with
    | some (m, r) => splitMark ++ m ++ replaceNumberedAux splitMark fuel r
    | none => c :: replaceNumberedAux splitMark fuel rest

/-- The replacement marker `___SPLIT___`. -/
def splitMark : String := "___SPLIT___"

/-- JavaScript `goal.replace(/^\s*\d+[\.\)]\s*/, "")`: drop an anchored leading
whitespace-digits-punctuation-whitespace marker if present, else leave the
list unchanged. -/
def stripLeadingMarker (l : List Char) : List Char :=
  let r1 := l.dropWhile Char.isWhitespace
  let ds := r1.takeWhile Char.isDigit
  if ds.isEmpty then l
  else
    match r1.drop ds.length with
    | p :: r3 =>
        if p = '.' || p = ')' then r3.dropWhile Char.isWhitespace else l
    | [] => l

/-- A separator matcher: given the rest of the input, return the length of
the separator match starting here (always at least 1), or `none`. -/
def Matcher : Type := List Char → Option Nat

/-- Regex `/\s+w\s+/i` for a literal lowercase word `w` (used for `and`, `also`,
`next`, `finally`, `lastly`). -/
def matchWordSep (w : List Char) : Matcher := fun l =>
  let n1 := (l.takeWhile Char.isWhitespace).length
  if n1 = 0 then none else
  let r1 := l.drop n1
  if startsWithCI w r1 then
    let r2 := r1.drop w.length
    let n2 := (r2.takeWhile Char.isWhitespace).length
    if n2 = 0 then none else some (n1 + w.length + n2)
  else none

/-- Regex `/\s*c\s*/` for a literal punctuation character `c` (used for `,`
and `.`). -/
def matchPunctSep (c0 : Char) : Matcher := fun l =>
  let n1 := (l.takeWhile Char.isWhitespace).length
  match l.drop n1 with
  | c :: r2 =>
      if c = c0 then some (n1 + 1 + (r2.takeWhile Char.isWhitespace).length)
      else none
  | [] => none

/-- Regex `/\s*\d+[\.\)]\s*/`. -/
def matchNumSep : Matcher := fun l =>
  let n1 := (l.takeWhile Char.isWhitespace).length
  let r1 := l.drop n1
  let nd := (r1.takeWhile Char.isDigit).length
  if nd = 0 then none else
  match r1.drop nd with
  | p :: r2 =>
      if p = '.' || p = ')' then
        some (n1 + nd + 1 + (r2.takeWhile Char.isWhitespace).length)
      else none
  | [] => none

/-- JavaScript `String.prototype.split` with a regex separator: emit the fragment
accumulated so far whenever the matcher fires, otherwise keep scanning.
`fuel` bounds the scan steps. -/
def splitByAux (m : Matcher) : Nat → List Char → List Char → List (List Char)
  | 0, l, acc => [acc.reverse ++ l]
  | _ + 1, [], acc => [acc.reverse]
  | fuel + 1, l@(c :: rest), acc =>
    match m l with
    | some k =>
        if k = 0 then splitByAux m fuel rest (c :: acc)
        else acc.reverse :: splitByAux m fuel (l.drop k) []
    | none => splitByAux m fuel rest (c :: acc)

/-- Split a string by a separator matcher. -/
def splitBy (m : Matcher) (s : String) : List String :=
  (splitByAux m s.data.length s.data []).map String.mk

/-- Matcher for a literal string separator (JavaScript `split` with a string
argument, used for the `___SPLIT___` marker). -/
def matchLit (sep : List Char) : Matcher := fun l =>
  if startsWithL sep l then some sep.length else none

/-- The `splitPatterns` array, in source order. -/
def splitPatterns : List Matcher :=
  [matchWordSep "and".data,
   matchPunctSep ',',
   matchWordSep "also".data,
   matchPunctSep '.',
   matchNumSep,
   matchWordSep "next".data,
   matchWordSep "finally".data,
   matchWordSep "lastly".data]

/-- Source method `VoiceGoalsInput.processTranscriptIntoGoals(transcript)`.  `maxGoals` is
the instance field (constructor default 5).  The JavaScript `for…of` loop
with `break` is folded: once a split produced two or more fragments, later
patterns leave the list unchanged, which is exactly what `break` does.
`filter(Boolean)` keeps exactly the non-empty fragments. -/
def processTranscriptIntoGoals (maxGoals : Nat) (transcript : String) :
    List String :=
  let goals :=
    if hasNumberMarker transcript.data then
      let numberedFormat := String.mk
        (replaceNumberedAux splitMark.data transcript.data.length
          transcript.data)
      let gs := (splitBy (matchLit splitMark.data) numberedFormat).filter
        (fun g => !g.data.isEmpty)
      gs.map (fun g => String.mk (trimL (stripLeadingMarker g.data)))
    else
      splitPatterns.foldl
        (fun goals m =>
          if goals.length = 0 || goals.length = 1 then
            (splitBy m transcript).filter (fun g => !g.data.isEmpty)
          else goals)
        []
  let goals :=
    ((goals.map (fun g => String.mk (trimL g.data))).filter
      (fun g => !g.data.isEmpty)).take maxGoals
  if goals.length = 0 ∧ 0 < (trimL transcript.data).length then
    [String.mk (trimL transcript.data)]
  else goals

/-! ## Week-start computation (`VoiceGoalsInput.sendGoalsToBackend`,
src/voice-goals-input.js lines 216-230)

The source computes

  const day = currentDate.getDay();            // local day of week, 0=Sunday
  weekStart.setDate(currentDate.getDate() - day);
  const weekStartFormatted = weekStart.toISOString().split("T")[0];

We model an instant as minutes since the Unix epoch (UTC) together with a
fixed local-zone offset in minutes (local wall time = UTC + offset).  In a
fixed-offset zone, `setDate(getDate() - day)` shifts the instant back by
exactly `day` civil days, preserving the local time of day, so it is
`utcMinutes - day * 1440`.  `toISOString` formats the UTC calendar date of
the instant; `getDay` reads the local calendar date. -/

structure ClockContext where
  utcMinutes : Int
  tzOffsetMinutes : Int
  deriving Repr, DecidableEq

/-- Calendar day (days since 1970-01-01) containing an instant given in
minutes, via floor division. -/
def epochDayOfMinutes (m : Int) : Int := m.fdiv 1440

/-- Day of week of an epoch day, JavaScript `getDay` convention
(0 = Sunday); 1970-01-01 (day 0) was a Thursday (4). -/
def dayOfWeek (d : Int) : Int := (d + 4).emod 7

/-- JavaScript `currentDate.getDay()` in the local zone. -/
def jsGetDay (ctx : ClockContext) : Int :=
  dayOfWeek (epochDayOfMinutes (ctx.utcMinutes + ctx.tzOffsetMinutes))

/-- Proleptic-Gregorian civil date from an epoch day (the days-to-civil
algorithm used by date libraries): returns (year, month, day). -/
def civilFromDays (z0 : Int) : Int × Nat × Nat :=
  let z : Int := z0 + 719468
  let era : Int := z.fdiv 146097
  let doe : Nat := (z - era * 146097).toNat
  let yoe : Nat := (doe - doe / 1460 + doe / 36524 - doe / 146096) / 365
  let y : Int := (yoe : Int) + era * 400
  let doy : Nat := doe - (365 * yoe + yoe / 4 - yoe / 100)
  let mp : Nat := (5 * doy + 2) / 153
  let d : Nat := doy - (153 * mp + 2) / 5 + 1
  let m : Nat := if mp < 10 then mp + 3 else mp - 9
  (if m ≤ 2 then y + 1 else y, m, d)

/-- Two-digit zero padding. -/
def pad2 (n : Nat) : String :=
  if n < 10 then "0" ++ toString n else toString n

/-- The date part of `toISOString` for an epoch day, `YYYY-MM-DD` (for years
1000-9999, which covers every date this application handles). -/
def formatEpochDay (z : Int) : String :=
  match civilFromDays z with
  | (y, m, d) => toString y ++ "-" ++ pad2 m ++ "-" ++ pad2 d

/-- The `week_start` string the source posts: the UTC calendar date of the
instant `now - getDay() * 1day`. -/
def weekStartPosted (ctx : ClockContext) : String :=
  formatEpochDay (epochDayOfMinutes (ctx.utcMinutes - jsGetDay ctx * 1440))

/-- The most recent Sunday on or before today in the local zone, formatted
`YYYY-MM-DD` (what the specification asserts is posted). -/
def mostRecentLocalSunday (ctx : ClockContext) : String :=
  let ld := epochDayOfMinutes (ctx.utcMinutes + ctx.tzOffsetMinutes)
  formatEpochDay (ld - dayOfWeek ld)

/-! ## DailyHabitTracker (src/unnamed/part_001)

The tracker is callback-driven.  Each handler is embedded as a function
from state to state plus a list of observable actions (speech-output
attempts, recognition starts, user callbacks, the network submission).
Network and speech outcomes that the source awaits are supplied through
`TrackerConfig` flags: `ttsOk` says whether `ttsService.speak` calls
resolve, `recOk` whether `recognition.start()` returns normally, and
`submitOk` whether the daily-log POST succeeds; the accompanying message
fields carry the corresponding error messages when a flag is `false`. -/

/-- The `habit_stack` object of the fetch response, slots `habit_1` to
`habit_5` (a slot may be missing or empty; both are falsy in the source). -/
structure HabitStack where
  habit_1 : Option String := none
  habit_2 : Option String := none
  habit_3 : Option String := none
  habit_4 : Option String := none
  habit_5 : Option String := none
  deriving Repr, DecidableEq

/-- JavaScript truthiness of a habit slot: present and non-empty. -/
def slotTruthy : Option String → Bool
  | some t => !t.isEmpty
  | none => false

/-- The `habits` array `processNextHabit` builds: the truthy slots in order,
as (key, text) pairs. -/
def habitsOf (hs : HabitStack) : List (String × String) :=
  [("habit_1", hs.habit_1), ("habit_2", hs.habit_2), ("habit_3", hs.habit_3),
   ("habit_4", hs.habit_4), ("habit_5", hs.habit_5)].filterMap
    (fun p => match p.2 with
      | some t => if t.isEmpty then none else some (p.1, t)
      | none => none)

/-- The value of `this.recognitionContext`. -/
inductive RecContext where
  | habitCtx : String → String → RecContext
  | reflectionCtx : RecContext
  deriving Repr, DecidableEq

/-- Mutable state of a `DailyHabitTracker` instance (the fields the control
flow reads or writes).  `recognitionContext` is unset until the first
listen. -/
structure TrackerState where
  isProcessing : Bool
  habitStack : Option HabitStack
  responses : List (String × String)
  currentHabitIndex : Nat
  reflection : String
  recognitionContext : Option RecContext
  deriving Repr, DecidableEq

/-- Constructor state: `habitStack = null`, `responses = {}`,
`currentHabitIndex = 0`, `isProcessing = false`, `reflection = ""`. -/
def initialTrackerState : TrackerState :=
  { isProcessing := false, habitStack := none, responses := [],
    currentHabitIndex := 0, reflection := "",
    recognitionContext := none }

/-- JavaScript object assignment `this.responses[key] = value`: overwrite in
place if present, else append (insertion order preserved). -/
def setResponse (rs : List (String × String)) (k v : String) :
    List (String × String) :=
  if rs.any (fun p => p.1 = k) then
    rs.map (fun p => if p.1 = k then (k, v) else p)
  else rs ++ [(k, v)]

/-- Lookup `this.responses[key]`. -/
def getResponse (rs : List (String × String)) (k : String) : Option String :=
  (rs.find? (fun p => p.1 = k)).map (fun p => p.2)

/-- Observable effects of the tracker handlers. -/
inductive TAction where
  | startCb : TAction
  | speakAct : String → TAction
  | listenAct : RecContext → TAction
  | errorCb : String → TAction
  | habitReadCb : String → String → TAction
  | habitResponseCb : String → String → String → TAction
  | authRequiredCb : TAction
  | submitAct : List (String × String) → String → TAction
  | completeCb : Bool → TAction
  deriving Repr, DecidableEq

/-- Environment outcomes for one session. -/
structure TrackerConfig where
  userId : Option String
  ttsOk : Bool := true
  ttsErrMsg : String := ""
  recOk : Bool := true
  recErrMsg : String := ""
  submitOk : Bool := true
  submitErrMsg : String := ""
  deriving Repr, DecidableEq

/-- The per-habit spoken prompt in `processNextHabit`. -/
def habitPrompt (text : String) : String :=
  "Did you complete this habit today: " ++ text ++
    "? Please respond with yes, no, or skip."

/-- The clarifying re-prompt for an unrecognized response. -/
def sorryPrompt : String :=
  "Sorry, I didn\u0027t understand. Please say yes, no, or skip."

/-- The reflection prompt spoken by `askForReflection`. -/
def reflectionPrompt : String :=
  "All habits are done for today. Would you like to add any reflection " ++
    "on your progress? If so, please speak after the beep. Otherwise, " ++
    "say skip."

/-- The confirmation spoken after a successful submission. -/
def thankYouText : String :=
  "Thank you! Your daily log has been saved."

/-- Source method `submitDailyLog`: re-checks authentication (a missing user
only fires `onAuthRequired` and returns), rejects an empty response set,
then POSTs `{date, responses, reflection}`; on success it speaks a thank-you
and completes with success, on any failure it surfaces the error and
completes with failure; either way `isProcessing` is cleared. -/
def submitDailyLog (cfg : TrackerConfig) (s : TrackerState) :
    TrackerState × List TAction :=
  if cfg.userId.isNone then (s, [TAction.authRequiredCb])
  else if s.responses.isEmpty then
    ({ s with isProcessing := false },
     [TAction.errorCb "Error submitting daily log: No habit responses to submit",
      TAction.completeCb false])
  else if cfg.submitOk then
    if cfg.ttsOk then
      ({ s with isProcessing := false },
       [TAction.submitAct s.responses s.reflection,
        TAction.speakAct thankYouText, TAction.completeCb true])
    else
      -- the thank-you speech rejects; the outer catch reports it and
      -- completes with failure
      ({ s with isProcessing := false },
       [TAction.submitAct s.responses s.reflection,
        TAction.speakAct thankYouText,
        TAction.errorCb ("Failed to speak text: " ++ cfg.ttsErrMsg),
        TAction.errorCb ("Error submitting daily log: " ++ cfg.ttsErrMsg),
        TAction.completeCb false])
  else
    ({ s with isProcessing := false },
     [TAction.submitAct s.responses s.reflection,
      TAction.errorCb ("Error submitting daily log: " ++ cfg.submitErrMsg),
      TAction.completeCb false])

/-- Source method `askForReflection`: speak the reflection prompt, set the
recognition context to reflection and start listening; if the prompt or the
recognition start fails, report and fall through to submission. -/
def askForReflection (cfg : TrackerConfig) (s : TrackerState) :
    TrackerState × List TAction :=
  if cfg.ttsOk then
    if cfg.recOk then
      ({ s with recognitionContext := some RecContext.reflectionCtx },
       [TAction.speakAct reflectionPrompt,
        TAction.listenAct RecContext.reflectionCtx])
    else
      let s1 := { s with recognitionContext := some RecContext.reflectionCtx }
      let r := submitDailyLog cfg s1
      (r.1,
       [TAction.speakAct reflectionPrompt,
        TAction.errorCb ("Error asking for reflection: " ++ cfg.recErrMsg)]
        ++ r.2)
  else
    let r := submitDailyLog cfg s
    (r.1,
     [TAction.speakAct reflectionPrompt,
      TAction.errorCb ("Failed to speak text: " ++ cfg.ttsErrMsg),
      TAction.errorCb ("Error asking for reflection: " ++ cfg.ttsErrMsg)]
      ++ r.2)

/-- Source method `processNextHabit` (with the inlined `listenForResponse`):
if every habit is processed, ask for reflection; otherwise announce the
current habit, speak its prompt and start listening.  A failing prompt or a
failing recognition start is reported and the loop advances to the next
habit anyway.  `fuel` bounds the error-path recursion (the index strictly
increases towards the habit count, which is at most 5). -/
def processNextHabitAux (cfg : TrackerConfig) :
    Nat → TrackerState → TrackerState × List TAction
  | 0, s => (s, [])
  | fuel + 1, s =>
    match s.habitStack with
    | none => ({ s with isProcessing := false }, [])
    | some hs =>
      let habits := habitsOf hs
      if h : s.currentHabitIndex < habits.length then
        let cur := habits.get ⟨s.currentHabitIndex, h⟩
        if cfg.ttsOk then
          if cfg.recOk then
            let ctx := RecContext.habitCtx cur.1 cur.2
            ({ s with recognitionContext := some ctx },
             [TAction.habitReadCb cur.1 cur.2,
              TAction.speakAct (habitPrompt cur.2),
              TAction.listenAct (RecContext.habitCtx cur.1 cur.2)])
          else
            let s1 := { s with
              recognitionContext := some (RecContext.habitCtx cur.1 cur.2),
              currentHabitIndex := s.currentHabitIndex + 1 }
            let r := processNextHabitAux cfg fuel s1
            (r.1,
             [TAction.habitReadCb cur.1 cur.2,
              TAction.speakAct (habitPrompt cur.2),
              TAction.errorCb
                ("Error starting speech recognition: " ++ cfg.recErrMsg)]
              ++ r.2)
        else
          let s1 := { s with currentHabitIndex := s.currentHabitIndex + 1 }
          let r := processNextHabitAux cfg fuel s1
          (r.1,
           [TAction.habitReadCb cur.1 cur.2,
            TAction.speakAct (habitPrompt cur.2),
            TAction.errorCb ("Failed to speak text: " ++ cfg.ttsErrMsg),
            TAction.errorCb ("Error processing habit: " ++ cfg.ttsErrMsg)]
            ++ r.2)
      else
        askForReflection cfg s

/-- Entry point for `processNextHabit`; five habits plus the reflection step
bound the recursion. -/
def processNextHabit (cfg : TrackerConfig) (s : TrackerState) :
    TrackerState × List TAction :=
  processNextHabitAux cfg 6 s

/-- String stored for a recognized classification. -/
def responseToString : HabitResponse → String
  | HabitResponse.yes => "yes"
  | HabitResponse.no => "no"
  | HabitResponse.skip => "skip"

/-- Source method `handleSpeechResult`: normalize the transcript; in habit
context classify it — a recognized answer is recorded and the loop advances,
an unrecognized one triggers the clarifying re-prompt and a re-listen for
the same habit; in reflection context the transcript verbatim becomes the
reflection and the log is submitted. -/
def handleSpeechResult (cfg : TrackerConfig) (raw : String)
    (s : TrackerState) : TrackerState × List TAction :=
  let transcript := normalizeTranscript raw
  match s.recognitionContext with
  | some (RecContext.habitCtx key text) =>
    match classifyTranscript transcript with
    | none =>
      -- speakText(sorry).then(() => listenForResponse(currentHabit))
      if cfg.ttsOk then
        if cfg.recOk then
          (s, [TAction.speakAct sorryPrompt,
               TAction.listenAct (RecContext.habitCtx key text)])
        else
          let s1 := { s with currentHabitIndex := s.currentHabitIndex + 1 }
          let r := processNextHabit cfg s1
          (r.1,
           [TAction.speakAct sorryPrompt,
            TAction.errorCb
              ("Error starting speech recognition: " ++ cfg.recErrMsg)]
            ++ r.2)
      else
        -- the re-prompt rejects: the then-callback never runs, so the
        -- session stalls after the error is reported
        (s, [TAction.speakAct sorryPrompt,
             TAction.errorCb ("Failed to speak text: " ++ cfg.ttsErrMsg)])
    | some resp =>
      let v := responseToString resp
      let s1 := { s with responses := setResponse s.responses key v,
                         currentHabitIndex := s.currentHabitIndex + 1 }
      let r := processNextHabit cfg s1
      (r.1, TAction.habitResponseCb key text v :: r.2)
  | some RecContext.reflectionCtx =>
    let s1 := { s with reflection := transcript }
    submitDailyLog cfg s1
  | none => (s, [])

/-- Source method `handleSpeechError`: report the recognition error; in
habit context advance to the next habit anyway, in reflection context submit
without a reflection. -/
def handleSpeechError (cfg : TrackerConfig) (errName : String)
    (s : TrackerState) : TrackerState × List TAction :=
  let report := TAction.errorCb ("Speech recognition error: " ++ errName)
  match s.recognitionContext with
  | some (RecContext.habitCtx _ _) =>
    let s1 := { s with currentHabitIndex := s.currentHabitIndex + 1 }
    let r := processNextHabit cfg s1
    (r.1, report :: r.2)
  | some RecContext.reflectionCtx =>
    let r := submitDailyLog cfg s
    (r.1, report :: r.2)
  | none => (s, [report])

/-- Source method `handleSpeechEnd`: while processing, an end event in habit
context with no recorded response for the current habit re-listens once for
that habit. -/
def handleSpeechEnd (cfg : TrackerConfig) (s : TrackerState) :
    TrackerState × List TAction :=
  if s.isProcessing then
    match s.recognitionContext with
    | some (RecContext.habitCtx key text) =>
      if (getResponse s.responses key).isNone then
        if cfg.recOk then
          (s, [TAction.listenAct (RecContext.habitCtx key text)])
        else
          let s1 := { s with currentHabitIndex := s.currentHabitIndex + 1 }
          let r := processNextHabit cfg s1
          (r.1,
           TAction.errorCb
             ("Error starting speech recognition: " ++ cfg.recErrMsg)
             :: r.2)
      else (s, [])
    | _ => (s, [])
  else (s, [])

/-- A delivered, JSON-parsed response of the habit-stack fetch. -/
structure FetchResponse where
  httpOk : Bool
  status : Nat
  bodySuccess : Option Bool := none
  bodyError : Option String := none
  habit_stack : Option HabitStack := none
  deriving Repr, DecidableEq

/-- Body and status handling of `fetchHabitStack` (after the fetch itself
delivered a parsed response): the Bool of the error case records whether
`onAuthRequired` fired (HTTP 401). -/
def fetchOutcome (r : FetchResponse) : Except (Bool × String) HabitStack :=
  if !r.httpOk then
    if r.status = 401 then
      Except.error (true, "Authentication required. Please log in first.")
    else if r.status = 400 then
      Except.error (false, "Invalid request: " ++
        (r.bodyError.getD "Missing required parameters"))
    else if r.status = 404 then
      Except.error
        (false, "No habit stack found for today. Please create goals first.")
    else if r.status = 429 then
      Except.error (false, "Server is busy. Please try again later.")
    else if 500 ≤ r.status then
      Except.error (false, "Server error: " ++
        (r.bodyError.getD "Internal server error"))
    else
      Except.error (false, "API error (" ++ toString r.status ++ "): " ++
        (r.bodyError.getD "unknown"))
  else if r.bodySuccess = some false then
    Except.error (false, r.bodyError.getD "Unknown API error")
  else
    match r.habit_stack with
    | none =>
      Except.error
        (false, "No habit stack found for today. Please create goals first.")
    | some hs => Except.ok hs

/-- Source method `startDailyCheck`: a no-op while already processing;
requires a user id; fetches the habit stack, resets responses and the index,
and starts the per-habit loop.  A fetch error is reported twice (once inside
`fetchHabitStack`, once by the start handler) and clears `isProcessing`. -/
def startDailyCheck (cfg : TrackerConfig) (resp : FetchResponse)
    (s : TrackerState) : TrackerState × List TAction :=
  if s.isProcessing then (s, [])
  else if cfg.userId.isNone then (s, [TAction.authRequiredCb])
  else
    match fetchOutcome resp with
    | Except.error e =>
      ({ s with isProcessing := false },
       TAction.startCb ::
         ((if e.1 then [TAction.authRequiredCb] else []) ++
          [TAction.errorCb ("Error fetching habit stack: " ++ e.2),
           TAction.errorCb ("Failed to start daily check: " ++ e.2)]))
    | Except.ok hs =>
      let s1 := { s with isProcessing := true, habitStack := some hs,
                         responses := [], currentHabitIndex := 0 }
      let r := processNextHabit cfg s1
      (r.1, TAction.startCb :: r.2)

/-- External events delivered to the tracker. -/
inductive TEvent where
  | startEv : FetchResponse → TEvent
  | resultEv : String → TEvent
  | errorEv : String → TEvent
  | endEv : TEvent
  deriving Repr, DecidableEq

/-- Dispatch one event to its handler. -/
def trackerStep (cfg : TrackerConfig) (s : TrackerState) :
    TEvent → TrackerState × List TAction
  | TEvent.startEv resp => startDailyCheck cfg resp s
  | TEvent.resultEv t => handleSpeechResult cfg t s
  | TEvent.errorEv m => handleSpeechError cfg m s
  | TEvent.endEv => handleSpeechEnd cfg s

/-- Run a list of events, concatenating the emitted actions. -/
def trackerRun (cfg : TrackerConfig) (s : TrackerState) :
    List TEvent → TrackerState × List TAction
  | [] => (s, [])
  | e :: es =>
    let r := trackerStep cfg s e
    let rest := trackerRun cfg r.1 es
    (rest.1, r.2 ++ rest.2)

/-! ## VoiceGoalsInput session flow (src/voice-goals-input.js)

Events are the recognition callbacks plus the user confirming the edited
goals (the UI calling `sendConfirmedGoals`).  The network POST of
`sendGoalsToBackend` appears as the explicit `netSubmit` action. -/

structure GoalsState where
  isListening : Bool
  lastResults : List String
  deriving Repr, DecidableEq

def initialGoalsState : GoalsState :=
  { isListening := false, lastResults := [] }

structure GoalsConfig where
  userId : Option String
  netOk : Bool := true
  netErrMsg : String := ""
  deriving Repr, DecidableEq

inductive GEvent where
  | startEv : GEvent
  | resultEv : List String → GEvent
  | endEv : GEvent
  | confirmEv : List String → GEvent
  | errorEv : String → GEvent
  deriving Repr, DecidableEq

inductive GAction where
  | startCb : GAction
  | stopCb : GAction
  | interimCb : GAction
  | finalResultCb : String → List String → Bool → GAction
  | authRequiredCb : GAction
  | netSubmit : List String → GAction
  | resultCb : GAction
  | errorCb : String → String → GAction
  deriving Repr, DecidableEq

/-- Source method `handleStart`: reset the collected final fragments. -/
def goalsHandleStart (s : GoalsState) : GoalsState × List GAction :=
  ({ s with lastResults := [] }, [GAction.startCb])

/-- Source method `handleResult`: push the trimmed final fragments of the
event and surface the interim callback. -/
def goalsHandleResult (finals : List String) (s : GoalsState) :
    GoalsState × List GAction :=
  ({ s with lastResults :=
       s.lastResults ++ finals.map (fun f => String.mk (trimL f.data)) },
   [GAction.interimCb])

/-- Source method `handleEnd`: join the final fragments, segment them into
goals, and surface them through `onFinalResult` with
`requiresConfirmation: true` (via `requestConfirmation`); nothing is sent to
the backend here. -/
def goalsHandleEnd (s : GoalsState) : GoalsState × List GAction :=
  let s1 := { s with isListening := false }
  let finalTranscript := String.intercalate " " s.lastResults
  if 0 < (trimL finalTranscript.data).length then
    let goals := processTranscriptIntoGoals 5 finalTranscript
    (s1, [GAction.stopCb, GAction.finalResultCb finalTranscript goals true])
  else (s1, [GAction.stopCb])

/-- Source method `sendGoalsToBackend`: validates a non-empty goal list and
a user id, then POSTs; on network failure the error is surfaced. -/
def sendGoalsToBackend (cfg : GoalsConfig) (goals : List String) :
    List GAction :=
  if goals.isEmpty then
    [GAction.errorCb "backend_error"
      "Error sending goals to backend: Goals must be a non-empty array"]
  else if cfg.userId.isNone then
    [GAction.authRequiredCb,
     GAction.errorCb "backend_error"
       "Error sending goals to backend: Authentication required. Please login first."]
  else if cfg.netOk then
    [GAction.netSubmit goals, GAction.resultCb]
  else
    [GAction.netSubmit goals,
     GAction.errorCb "backend_error"
       ("Error sending goals to backend: " ++ cfg.netErrMsg)]

/-- Source method `sendConfirmedGoals`: the only caller of
`sendGoalsToBackend`; re-checks authentication, forwards the confirmed
goals, and converts a rejection into the `process_error` callback. -/
def sendConfirmedGoals (cfg : GoalsConfig) (goals : List String) :
    List GAction :=
  if cfg.userId.isNone then [GAction.authRequiredCb]
  else
    let as := sendGoalsToBackend cfg goals
    if as.any (fun a => match a with
        | GAction.errorCb _ _ => true
        | _ => false) then
      as ++ [GAction.errorCb "process_error" "Error processing goals"]
    else as

/-- Dispatch one goals-session event. -/
def goalsStep (cfg : GoalsConfig) (s : GoalsState) :
    GEvent → GoalsState × List GAction
  | GEvent.startEv => goalsHandleStart s
  | GEvent.resultEv finals => goalsHandleResult finals s
  | GEvent.endEv => goalsHandleEnd s
  | GEvent.confirmEv goals => (s, sendConfirmedGoals cfg goals)
  | GEvent.errorEv m =>
      ({ s with isListening := false }, [GAction.errorCb "recognition" m])

/-- Run a list of goals-session events. -/
def goalsRun (cfg : GoalsConfig) (s : GoalsState) :
    List GEvent → GoalsState × List GAction
  | [] => (s, [])
  | e :: es =>
    let r := goalsStep cfg s e
    let rest := goalsRun cfg r.1 es
    (rest.1, r.2 ++ rest.2)

/-- Discriminator: did the promise returned by `speak` reject? -/
def SpeakResult.isRejected {eps : Type} : SpeakResult eps → Bool
  | SpeakResult.rejected _ => true
  | _ => false

/-- A transcript with no recognizable delimiter: the numbered-marker test
fails and every pattern of `splitPatterns` leaves the transcript in one
piece. -/
def noDelimiter (t : String) : Bool :=
  !hasNumberMarker t.data &&
    splitPatterns.all (fun m => splitBy m t == [t])

/-! ## Theorems -/

/-- With at least two providers, the circular successor of a valid index is
a different index. -/
theorem next_index_ne {n i : Nat} (h2 : 2 ≤ n) (hi : i < n) :
    (i + 1) % n ≠ i := by
  rcases Nat.lt_or_ge (i + 1) n with h | h
  · rw [Nat.mod_eq_of_lt h]; omega
  · have hn : i + 1 = n := by omega
    rw [hn, Nat.mod_self]; omega

/-- C1: with at least two registered providers, when the current provider
rejects during one `speak` call the dispatcher attempts exactly the
circularly next provider once more: the attempted indices are precisely
`[current, (current+1) % n]`, two distinct entries, so no provider is tried
twice and there is no third attempt. -/
theorem c1_failover_attempts_next_exactly_once {eps : Type}
    (fail : Nat → Option eps) (s : TTSState) (e : eps)
    (h2 : 2 ≤ s.numProviders)
    (hidx : s.currentProviderIndex < s.numProviders)
    (hfail : fail s.currentProviderIndex = some e) :
    (speak false fail s).2.1 =
      [s.currentProviderIndex, (s.currentProviderIndex + 1) % s.numProviders]
    ∧ (s.currentProviderIndex + 1) % s.numProviders ≠ s.currentProviderIndex
    := by
  obtain ⟨n, i, p⟩ := s
  simp only at h2 hidx hfail
  refine ⟨?_, next_index_ne h2 hidx⟩
  have hn : ¬(n = 0) := by omega
  have hle : ¬(n ≤ 1) := by omega
  simp only [speak, Bool.false_eq_true, if_false, hn, if_neg,
    attemptCurrent, hidx, if_pos, hfail, Option.map_some',
    switchToNextProvider, hle]
  have hlt : (i + 1) % n < n := Nat.mod_lt _ (by omega)
  rcases hf2 : fail ((i + 1) % n) with _ | e2 <;> simp [hf2, hlt]

/-- C1 witness at a concrete instance: two providers, the first failing. -/
theorem c1_failover_attempts_next_exactly_once_witness :
    (@speak Nat false (fun j => if j = 0 then some 7 else none)
        ⟨2, 0, false⟩).2.1 = [0, 1] ∧ (1 : Nat) ≠ 0 := by
  have h := c1_failover_attempts_next_exactly_once
    (fun j => if j = 0 then some 7 else none) ⟨2, 0, false⟩ 7
    (by decide) (by decide) (by decide)
  simpa using h

/-- C2 counterexample: with two providers that both reject, the promise
returned by `speak` does NOT reject — the second error is delivered through
the `onError` callback and the call resolves (`resolvedErr`, not
`rejected`), because the second `catch` block swallows the error. -/
theorem c2_counterexample_speak_resolves_on_double_failure :
    (@speak Nat false (fun j => some j) ⟨2, 0, false⟩).1 =
      SpeakResult.resolvedErr (TTSErr.provider 1)
    ∧ SpeakResult.isRejected (@speak Nat false (fun j => some j)
        ⟨2, 0, false⟩).1 = false := by
  constructor <;> rfl

/-- C2 as amended: when the current provider rejects and the single
failover attempt on the next provider also rejects, `speak` invokes the
`onError` callback with the second provider error and clears `isPlaying`
to `false`; the returned promise resolves rather than rejecting. -/
theorem c2_amended_double_failure_callback_and_state {eps : Type}
    (fail : Nat → Option eps) (s : TTSState) (e1 e2 : eps)
    (h2 : 2 ≤ s.numProviders)
    (hidx : s.currentProviderIndex < s.numProviders)
    (hf1 : fail s.currentProviderIndex = some e1)
    (hf2 : fail ((s.currentProviderIndex + 1) % s.numProviders) = some e2) :
    (speak false fail s).1 = SpeakResult.resolvedErr (TTSErr.provider e2)
    ∧ SpeakResult.isRejected (speak false fail s).1 = false
    ∧ (speak false fail s).2.2.isPlaying = false := by
  obtain ⟨n, i, p⟩ := s
  simp only at h2 hidx hf1 hf2
  have hn : ¬(n = 0) := by omega
  have hle : ¬(n ≤ 1) := by omega
  have hlt : (i + 1) % n < n := Nat.mod_lt _ (by omega)
  simp [speak, attemptCurrent, switchToNextProvider, hn, hle, hidx, hlt,
    hf1, hf2, SpeakResult.isRejected]

/-- C2 amended witness at a concrete instance. -/
theorem c2_amended_double_failure_callback_and_state_witness :
    (@speak Nat false (fun j => some (j + 5)) ⟨2, 1, true⟩).1 =
      SpeakResult.resolvedErr (TTSErr.provider 5)
    ∧ SpeakResult.isRejected (@speak Nat false (fun j => some (j + 5))
        ⟨2, 1, true⟩).1 = false
    ∧ (@speak Nat false (fun j => some (j + 5)) ⟨2, 1, true⟩).2.2.isPlaying
        = false := by
  have h := c2_amended_double_failure_callback_and_state
    (fun j => some (j + 5)) ⟨2, 1, true⟩ 6 5
    (by decide) (by decide) (by decide) (by decide)
  simpa using h

/-- Helper: when at least one provider is registered and the text is
non-empty, the first provider `speak` attempts is the current one. -/
theorem speak_first_attempt {eps : Type} (fail : Nat → Option eps)
    (s : TTSState) (hn : s.numProviders ≠ 0) :
    ((speak false fail s).2.1).head? = some s.currentProviderIndex := by
  obtain ⟨n, i, p⟩ := s
  simp only at hn
  simp only [speak, Bool.false_eq_true, if_false, hn, if_neg]
  split
  · simp
  · split
    · simp
    · split <;> simp

/-- C10: failover is sticky.  After a `speak` call whose first attempt
failed (with at least two providers), the dispatcher is left pointing at the
fallback provider — whether or not the retry succeeded — and any subsequent
`speak` call attempts that fallback provider first.  No code path resets the
index to the configured default. -/
theorem c10_failover_sticky {eps : Type} (fail fail2 : Nat → Option eps)
    (s : TTSState) (e1 : eps)
    (h2 : 2 ≤ s.numProviders)
    (hidx : s.currentProviderIndex < s.numProviders)
    (hf1 : fail s.currentProviderIndex = some e1) :
    (speak false fail s).2.2.currentProviderIndex =
      (s.currentProviderIndex + 1) % s.numProviders
    ∧ (speak false fail s).2.2.numProviders = s.numProviders
    ∧ ((speak false fail2 (speak false fail s).2.2).2.1).head? =
        some ((s.currentProviderIndex + 1) % s.numProviders) := by
  obtain ⟨n, i, p⟩ := s
  simp only at h2 hidx hf1
  have hn : ¬(n = 0) := by omega
  have hle : ¬(n ≤ 1) := by omega
  have hlt : (i + 1) % n < n := Nat.mod_lt _ (by omega)
  have hstate : (speak false fail (⟨n, i, p⟩ : TTSState)).2.2 =
      ⟨n, (i + 1) % n, false⟩ := by
    simp only [speak, Bool.false_eq_true, if_false, hn, if_neg,
      attemptCurrent, hidx, if_pos, hf1, Option.map_some',
      switchToNextProvider, hle]
    rcases hf2 : fail ((i + 1) % n) with _ | e2 <;> simp [hf2, hlt]
  refine ⟨by rw [hstate], by rw [hstate], ?_⟩
  rw [hstate]
  exact speak_first_attempt fail2 ⟨n, (i + 1) % n, false⟩ hn

/-- C10 witness at a concrete instance. -/
theorem c10_failover_sticky_witness :
    (@speak Nat false (fun j => some j) ⟨2, 0, false⟩).2.2.currentProviderIndex
        = 1
    ∧ (@speak Nat false (fun j => some j) ⟨2, 0, false⟩).2.2.numProviders = 2
    ∧ ((@speak Nat false (fun _ => none)
        (@speak Nat false (fun j => some j) ⟨2, 0, false⟩).2.2).2.1).head? =
        some 1 := by
  have h := c10_failover_sticky (fun j => some j) (fun _ => none)
    ⟨2, 0, false⟩ 0 (by decide) (by decide) (by decide)
  simpa using h

/-- C3: the check-in classifier is total over {yes, no, skip, ambiguous}
with the marker sets of the source; the four example transcripts classify as
the specification says, and an ambiguous transcript records nothing and
re-prompts then re-listens for the same habit, leaving the state (responses,
habit index, context) unchanged. -/
theorem c3_classification_and_reprompt :
    classifyTranscript (normalizeTranscript "yeah I did it") =
      some HabitResponse.yes
    ∧ classifyTranscript (normalizeTranscript "nah not today") =
      some HabitResponse.no
    ∧ classifyTranscript (normalizeTranscript "let\u0027s skip that one") =
      some HabitResponse.skip
    ∧ classifyTranscript (normalizeTranscript "maybe kind of") = none
    ∧ (∀ (cfg : TrackerConfig) (s : TrackerState) (key text raw : String),
        cfg.ttsOk = true → cfg.recOk = true →
        s.recognitionContext = some (RecContext.habitCtx key text) →
        classifyTranscript (normalizeTranscript raw) = none →
        handleSpeechResult cfg raw s =
          (s, [TAction.speakAct sorryPrompt,
               TAction.listenAct (RecContext.habitCtx key text)])) := by
  refine ⟨by decide, by decide, by decide, by decide, ?_⟩
  intro cfg s key text raw htts hrec hctx hclass
  simp only [handleSpeechResult, hctx, hclass, htts, hrec, if_true]

/-- C3 witness: a concrete ambiguous transcript in a concrete listening
state re-prompts and re-listens without recording anything. -/
theorem c3_classification_and_reprompt_witness :
    handleSpeechResult { userId := some "u" } "maybe kind of"
      { isProcessing := true, habitStack := none, responses := [],
        currentHabitIndex := 0, reflection := "",
        recognitionContext := some (RecContext.habitCtx "habit_1" "Drink water") }
    = ({ isProcessing := true, habitStack := none, responses := [],
         currentHabitIndex := 0, reflection := "",
         recognitionContext := some (RecContext.habitCtx "habit_1" "Drink water") },
       [TAction.speakAct sorryPrompt,
        TAction.listenAct (RecContext.habitCtx "habit_1" "Drink water")]) :=
  c3_classification_and_reprompt.2.2.2.2 _ _ "habit_1" "Drink water"
    "maybe kind of" rfl rfl rfl (by decide)

/-- Helper: one unfolding of the habit loop when an unprocessed habit
remains and both the prompt and the recognition start succeed. -/
theorem processNextHabit_listen (cfg : TrackerConfig) (s : TrackerState)
    (hs : HabitStack)
    (hstack : s.habitStack = some hs)
    (htts : cfg.ttsOk = true) (hrec : cfg.recOk = true)
    (h : s.currentHabitIndex < (habitsOf hs).length) :
    processNextHabit cfg s =
      ({ s with recognitionContext := some (RecContext.habitCtx
            ((habitsOf hs).get ⟨s.currentHabitIndex, h⟩).1
            ((habitsOf hs).get ⟨s.currentHabitIndex, h⟩).2) },
       [TAction.habitReadCb ((habitsOf hs).get ⟨s.currentHabitIndex, h⟩).1
          ((habitsOf hs).get ⟨s.currentHabitIndex, h⟩).2,
        TAction.speakAct
          (habitPrompt ((habitsOf hs).get ⟨s.currentHabitIndex, h⟩).2),
        TAction.listenAct (RecContext.habitCtx
          ((habitsOf hs).get ⟨s.currentHabitIndex, h⟩).1
          ((habitsOf hs).get ⟨s.currentHabitIndex, h⟩).2)]) := by
  show processNextHabitAux cfg (5 + 1) s = _
  simp only [processNextHabitAux, hstack, htts, hrec, if_true, h, dif_pos]

/-- Helper: one unfolding of the habit loop when every habit is processed:
the loop hands over to `askForReflection`. -/
theorem processNextHabit_done (cfg : TrackerConfig) (s : TrackerState)
    (hs : HabitStack)
    (hstack : s.habitStack = some hs)
    (h : (habitsOf hs).length ≤ s.currentHabitIndex) :
    processNextHabit cfg s = askForReflection cfg s := by
  show processNextHabitAux cfg (5 + 1) s = _
  have h2 : ¬(s.currentHabitIndex < (habitsOf hs).length) := by omega
  simp only [processNextHabitAux, hstack]
  rw [dif_neg h2]

/-- C4: a recognition/transport error during habit processing does not abort
the session: the error is surfaced on the error callback, no response is
recorded for the current habit, the habit index advances by one, and the
session continues — listening for the next habit when one remains, otherwise
reaching the reflection phase. -/
theorem c4_recognition_error_advances (cfg : TrackerConfig)
    (s : TrackerState) (hs : HabitStack) (key text err : String)
    (htts : cfg.ttsOk = true) (hrec : cfg.recOk = true)
    (hctx : s.recognitionContext = some (RecContext.habitCtx key text))
    (hstack : s.habitStack = some hs) :
    (handleSpeechError cfg err s).1.currentHabitIndex =
      s.currentHabitIndex + 1
    ∧ (handleSpeechError cfg err s).1.responses = s.responses
    ∧ ((handleSpeechError cfg err s).2).head? =
        some (TAction.errorCb ("Speech recognition error: " ++ err))
    ∧ (∀ hlt : s.currentHabitIndex + 1 < (habitsOf hs).length,
        ((handleSpeechError cfg err s).2).getLast? =
          some (TAction.listenAct (RecContext.habitCtx
            ((habitsOf hs).get ⟨s.currentHabitIndex + 1, hlt⟩).1
            ((habitsOf hs).get ⟨s.currentHabitIndex + 1, hlt⟩).2)))
    ∧ ((habitsOf hs).length ≤ s.currentHabitIndex + 1 →
        ((handleSpeechError cfg err s).2).getLast? =
          some (TAction.listenAct RecContext.reflectionCtx)) := by
  obtain ⟨ip, hstk, rs, idx, rf, rctx⟩ := s
  simp only at hctx hstack ⊢
  subst hctx
  subst hstack
  have hE : handleSpeechError cfg err
      ⟨ip, some hs, rs, idx, rf, some (RecContext.habitCtx key text)⟩ =
      ((processNextHabit cfg
          ⟨ip, some hs, rs, idx + 1, rf,
           some (RecContext.habitCtx key text)⟩).1,
       TAction.errorCb ("Speech recognition error: " ++ err) ::
         (processNextHabit cfg
           ⟨ip, some hs, rs, idx + 1, rf,
            some (RecContext.habitCtx key text)⟩).2) := rfl
  rw [hE]
  by_cases hlt : idx + 1 < (habitsOf hs).length
  · rw [processNextHabit_listen cfg _ hs rfl htts hrec hlt]
    exact ⟨by trivial, by trivial, by trivial, fun _ => by trivial,
      fun hge => absurd hlt (by omega)⟩
  · have hge : (habitsOf hs).length ≤ idx + 1 := by omega
    rw [processNextHabit_done cfg _ hs rfl hge]
    simp only [askForReflection, htts, hrec, if_true]
    exact ⟨by trivial, by trivial, by trivial,
      fun h => absurd h (by omega), fun _ => by trivial⟩

/-- C4 witness: habit 2 of 3 hits a recognition error; the session surfaces
it and moves on to habit 3. -/
theorem c4_recognition_error_advances_witness :
    (handleSpeechError { userId := some "u" } "network"
      { isProcessing := true,
        habitStack := some { habit_1 := some "A", habit_2 := some "B", habit_3 := some "C" },
        responses := [("habit_1", "yes")], currentHabitIndex := 1,
        reflection := "",
        recognitionContext := some (RecContext.habitCtx "habit_2" "B") }).1.currentHabitIndex = 2
    ∧ (handleSpeechError { userId := some "u" } "network"
      { isProcessing := true,
        habitStack := some { habit_1 := some "A", habit_2 := some "B", habit_3 := some "C" },
        responses := [("habit_1", "yes")], currentHabitIndex := 1,
        reflection := "",
        recognitionContext := some (RecContext.habitCtx "habit_2" "B") }).1.responses = [("habit_1", "yes")]
    ∧ ((handleSpeechError { userId := some "u" } "network"
      { isProcessing := true,
        habitStack := some { habit_1 := some "A", habit_2 := some "B", habit_3 := some "C" },
        responses := [("habit_1", "yes")], currentHabitIndex := 1,
        reflection := "",
        recognitionContext := some (RecContext.habitCtx "habit_2" "B") }).2).getLast? =
        some (TAction.listenAct (RecContext.habitCtx "habit_3" "C")) := by
  have h := c4_recognition_error_advances { userId := some "u" }
    { isProcessing := true,
      habitStack := some { habit_1 := some "A", habit_2 := some "B", habit_3 := some "C" },
      responses := [("habit_1", "yes")], currentHabitIndex := 1,
      reflection := "",
      recognitionContext := some (RecContext.habitCtx "habit_2" "B") }
    { habit_1 := some "A", habit_2 := some "B", habit_3 := some "C" }
    "habit_2" "B" "network" rfl rfl rfl rfl
  refine ⟨h.1, h.2.1, ?_⟩
  have h4 := h.2.2.2.1 (by decide)
  simpa using h4

/-- C5 counterexample: a whitespace-only transcript is non-empty
(length 3) and matches no delimiter pattern, yet segmentation returns the
empty list, not a single goal — the fallback guard tests the trimmed
length, so the claim fails for non-empty all-whitespace input. -/
theorem c5_counterexample_whitespace_transcript :
    processTranscriptIntoGoals 5 "   " = []
    ∧ ("   " : String).data.length = 3
    ∧ noDelimiter "   " = true := by
  refine ⟨by decide, by decide, by decide⟩

/-- Helper: one step of the delimiter-pattern loop on a transcript the
pattern does not split leaves a singleton fragment list. -/
theorem fold_step_nodelim (t : String) (ht : t.data.isEmpty = false)
    (m : Matcher) (hm : splitBy m t = [t]) (init : List String)
    (hinit : init = [] ∨ init = [t]) :
    (if init.length = 0 || init.length = 1 then
      (splitBy m t).filter (fun g => !g.data.isEmpty)
    else init) = [t] := by
  rcases hinit with h | h <;> subst h <;>
    simp [hm, List.filter, ht]

/-- Helper: the whole delimiter-pattern loop on a transcript no pattern
splits returns the transcript as the single fragment. -/
theorem foldl_nodelim (t : String) (ht : t.data.isEmpty = false) :
    ∀ (ps : List Matcher), (∀ m ∈ ps, splitBy m t = [t]) →
    ∀ init : List String, (init = [] ∨ init = [t]) →
      (ps ≠ [] →
        ps.foldl (fun goals m =>
          if goals.length = 0 || goals.length = 1 then
            (splitBy m t).filter (fun g => !g.data.isEmpty)
          else goals) init = [t])
      ∧ (ps = [] →
        ps.foldl (fun goals m =>
          if goals.length = 0 || goals.length = 1 then
            (splitBy m t).filter (fun g => !g.data.isEmpty)
          else goals) init = init) := by
  intro ps
  induction ps with
  | nil =>
    intro _ init _
    exact ⟨fun h => absurd rfl h, fun _ => rfl⟩
  | cons m ms ih =>
    intro hps init hinit
    refine ⟨fun _ => ?_, fun h => by simp at h⟩
    rw [List.foldl_cons]
    have hstep := fold_step_nodelim t ht m (hps m (by simp)) init hinit
    rw [hstep]
    have hih := ih (fun x hx => hps x (List.mem_cons_of_mem m hx))
      [t] (Or.inr rfl)
    by_cases hms : ms = []
    · rw [hih.2 hms]
    · rw [hih.1 hms]

/-- C5 as amended: the numbered-marker example segments exactly as the
specification shows; the result never exceeds 5 goals; and a transcript
with no recognizable delimiter whose trimmed form is non-empty yields
exactly the single trimmed transcript. -/
theorem c5_amended_segmentation :
    processTranscriptIntoGoals 5 "1. exercise daily 2) read more 3. meditate"
      = ["exercise daily", "read more", "meditate"]
    ∧ (∀ t : String, (processTranscriptIntoGoals 5 t).length ≤ 5)
    ∧ (∀ t : String, noDelimiter t = true → 0 < (trimL t.data).length →
        processTranscriptIntoGoals 5 t = [String.mk (trimL t.data)]) := by
  refine ⟨by decide, ?_, ?_⟩
  · intro t
    unfold processTranscriptIntoGoals
    dsimp only
    split
    all_goals split
    all_goals simp
  · intro t hnd htrim
    simp only [noDelimiter, Bool.and_eq_true, Bool.not_eq_true',
      List.all_eq_true, beq_iff_eq] at hnd
    obtain ⟨hmk, hall⟩ := hnd
    have hne : t.data.isEmpty = false := by
      cases hd : t.data with
      | nil =>
        rw [hd] at htrim
        simp [trimL] at htrim
      | cons a l => simp
    have htne : (trimL t.data).isEmpty = false := by
      cases hd : trimL t.data with
      | nil => rw [hd] at htrim; simp at htrim
      | cons a l => simp
    have hfold := (foldl_nodelim t hne splitPatterns hall [] (Or.inl rfl)).1
      (by simp [splitPatterns])
    unfold processTranscriptIntoGoals
    dsimp only
    simp only [hmk, Bool.false_eq_true, if_false]
    rw [hfold]
    simp [List.filter, htne, htrim]

/-- C5 amended witness: a single-goal transcript with no delimiter. -/
theorem c5_amended_segmentation_witness :
    processTranscriptIntoGoals 5 "just one goal" = ["just one goal"] := by
  have h := c5_amended_segmentation.2.2 "just one goal" (by decide) (by decide)
  simpa using h

/-- Helper: the only goals-session event whose handler emits a network
submission is the user confirming the goals. -/
theorem goalsStep_submit_only_confirm (cfg : GoalsConfig) (s : GoalsState)
    (e : GEvent) (g : List String)
    (h : GAction.netSubmit g ∈ (goalsStep cfg s e).2) :
    ∃ gs, e = GEvent.confirmEv gs := by
  cases e with
  | startEv => simp [goalsStep, goalsHandleStart] at h
  | resultEv finals => simp [goalsStep, goalsHandleResult] at h
  | endEv =>
    replace h : GAction.netSubmit g ∈ (goalsHandleEnd s).2 := h
    unfold goalsHandleEnd at h
    dsimp only at h
    split at h <;> simp at h
  | confirmEv gs => exact ⟨gs, rfl⟩
  | errorEv m => simp [goalsStep] at h

/-- C6: extracted goals are never sent to the backend without confirmation.
When listening ends, the handler only surfaces the processed goals through
the confirmation callback with `requiresConfirmation = true` and performs no
network submission; and in any event sequence, a network submission occurs
only if the sequence contains a user-confirmation event. -/
theorem c6_confirmation_required_before_submission :
    (∀ s : GoalsState,
      (∀ g, GAction.netSubmit g ∉ (goalsHandleEnd s).2)
      ∧ (∀ tr gs b, GAction.finalResultCb tr gs b ∈ (goalsHandleEnd s).2 →
          b = true))
    ∧ (∀ (cfg : GoalsConfig) (s : GoalsState) (events : List GEvent)
        (g : List String),
        GAction.netSubmit g ∈ (goalsRun cfg s events).2 →
        ∃ gs, GEvent.confirmEv gs ∈ events) := by
  constructor
  · intro s
    constructor
    · intro g
      unfold goalsHandleEnd
      dsimp only
      split <;> simp
    · intro tr gs b hmem
      unfold goalsHandleEnd at hmem
      dsimp only at hmem
      split at hmem <;> simp at hmem
      obtain ⟨-, -, hb⟩ := hmem
      exact hb
  · intro cfg s events
    induction events generalizing s with
    | nil => intro g h; simp [goalsRun] at h
    | cons e es ih =>
      intro g h
      simp only [goalsRun, List.mem_append] at h
      rcases h with h | h
      · obtain ⟨gs, rfl⟩ := goalsStep_submit_only_confirm cfg s e g h
        exact ⟨gs, by simp⟩
      · obtain ⟨gs, hgs⟩ := ih _ g h
        exact ⟨gs, by simp [hgs]⟩

/-- C6 witness: in a run consisting of a single confirm event the
submission that occurs is licensed by that confirm event. -/
theorem c6_confirmation_required_before_submission_witness :
    ∃ gs, GEvent.confirmEv gs ∈ [GEvent.confirmEv ["walk daily"]] :=
  c6_confirmation_required_before_submission.2 { userId := some "u" }
    initialGoalsState [GEvent.confirmEv ["walk daily"]] ["walk daily"]
    (by decide)

/-- C7 counterexample: in a UTC-5 zone at local time 22:00 on Sunday
2025-10-05 (epoch day 20366, local day-of-week 0), the posted `week_start`
is the UTC calendar date 2025-10-06 — Monday — not the most recent local
Sunday 2025-10-05, because `toISOString` formats the UTC date while
`getDay` reads the local one. -/
theorem c7_counterexample_week_start_utc_shift :
    weekStartPosted ⟨20366 * 1440 + 1620, -300⟩ = "2025-10-06"
    ∧ mostRecentLocalSunday ⟨20366 * 1440 + 1620, -300⟩ = "2025-10-05"
    ∧ jsGetDay ⟨20366 * 1440 + 1620, -300⟩ = 0 := by
  refine ⟨by decide, by decide, by decide⟩

/-- Helper: shifting an instant back by whole days shifts its epoch day by
the same amount. -/
theorem epochDay_sub_days (m d : Int) :
    epochDayOfMinutes (m - d * 1440) = epochDayOfMinutes m - d := by
  unfold epochDayOfMinutes
  rw [Int.fdiv_eq_ediv _ (by norm_num), Int.fdiv_eq_ediv _ (by norm_num)]
  have hst : m - d * 1440 = m + (-d) * 1440 := by ring
  rw [hst, Int.add_mul_ediv_right _ _ (by norm_num)]
  ring

/-- C7 as amended: the posted `week_start` is the UTC calendar date of the
instant `now - getDay()*24h`; whenever the local calendar date of the
current instant coincides with its UTC calendar date, this equals the most
recent local Sunday on or before today in `YYYY-MM-DD` form (and by the
counterexample above it differs otherwise). -/
theorem c7_amended_week_start_matches_when_dates_agree (ctx : ClockContext)
    (h : epochDayOfMinutes (ctx.utcMinutes + ctx.tzOffsetMinutes) =
        epochDayOfMinutes ctx.utcMinutes) :
    weekStartPosted ctx = mostRecentLocalSunday ctx := by
  unfold weekStartPosted mostRecentLocalSunday jsGetDay
  rw [epochDay_sub_days, h]

/-- C7 amended witness: a UTC session (offset 0) posts exactly the most
recent Sunday. -/
theorem c7_amended_week_start_matches_when_dates_agree_witness :
    weekStartPosted ⟨20366 * 1440 + 600, 0⟩ =
      mostRecentLocalSunday ⟨20366 * 1440 + 600, 0⟩ :=
  c7_amended_week_start_matches_when_dates_agree ⟨20366 * 1440 + 600, 0⟩
    (by decide)

/-- C8: evaluation of the end-to-end scenario on the embedded code.  With
the stack {habit_1: Drink water, habit_2: Stretch} and spoken answers
"yes", "no", then "skip" at the reflection prompt, the submitted payload
carries responses {habit_1: yes, habit_2: no} but reflection "skip" — the
reflection handler stores the transcript verbatim even though the spoken
prompt instructs the user to say skip to decline, so the claimed empty
reflection is never produced. -/
theorem c8_reflection_skip_recorded_verbatim :
    (trackerRun { userId := some "user1" } initialTrackerState
      [TEvent.startEv { httpOk := true, status := 200, bodySuccess := some true, habit_stack := some { habit_1 := some "Drink water", habit_2 := some "Stretch" } },
       TEvent.resultEv "yes", TEvent.resultEv "no",
       TEvent.resultEv "skip"]).2.filterMap
        (fun a => match a with
          | TAction.submitAct rs r => some (rs, r)
          | _ => none)
      = [([("habit_1", "yes"), ("habit_2", "no")], "skip")] := by
  decide

/-- C9 counterexample: a successful fetch whose `habit_stack` object has no
non-empty slot does not abort the session with any error: the run emits
only the start callback, the reflection prompt and a reflection listen, and
the session is still processing — it proceeded rather than aborting. -/
theorem c9_counterexample_empty_stack_proceeds :
    (trackerRun { userId := some "user1" } initialTrackerState
      [TEvent.startEv { httpOk := true, status := 200, bodySuccess := some true, habit_stack := some {} }]).2
      = [TAction.startCb, TAction.speakAct reflectionPrompt,
         TAction.listenAct RecContext.reflectionCtx]
    ∧ (trackerRun { userId := some "user1" } initialTrackerState
      [TEvent.startEv { httpOk := true, status := 200, bodySuccess := some true, habit_stack := some {} }]).1.isProcessing = true := by
  refine ⟨by decide, by decide⟩

/-- C9 as amended: when the fetch succeeds but the returned stack contains
no non-empty habit slot, the session does not abort — there is no
EmptyStack check — and instead proceeds directly to the reflection phase
with zero habits processed. -/
theorem c9_amended_empty_stack_reaches_reflection (cfg : TrackerConfig)
    (resp : FetchResponse) (hs : HabitStack) (s : TrackerState)
    (hu : cfg.userId.isNone = false)
    (htts : cfg.ttsOk = true) (hrec : cfg.recOk = true)
    (hp : s.isProcessing = false)
    (hf : fetchOutcome resp = Except.ok hs)
    (hempty : habitsOf hs = []) :
    startDailyCheck cfg resp s =
      ({ s with isProcessing := true, habitStack := some hs,
                responses := [], currentHabitIndex := 0,
                recognitionContext := some RecContext.reflectionCtx },
       [TAction.startCb, TAction.speakAct reflectionPrompt,
        TAction.listenAct RecContext.reflectionCtx]) := by
  obtain ⟨ip, hstk, rs, idx, rf, rctx⟩ := s
  simp only at hp
  subst hp
  simp only [startDailyCheck, hu, hf, Bool.false_eq_true, if_false]
  rw [processNextHabit_done cfg _ hs rfl (by simp [hempty])]
  simp only [askForReflection, htts, hrec, if_true]

/-- C9 amended witness: concrete all-empty stack. -/
theorem c9_amended_empty_stack_reaches_reflection_witness :
    startDailyCheck { userId := some "user1" }
      { httpOk := true, status := 200, bodySuccess := some true, habit_stack := some {} }
      initialTrackerState
    = ({ isProcessing := true, habitStack := some {}, responses := [],
         currentHabitIndex := 0, reflection := "",
         recognitionContext := some RecContext.reflectionCtx },
       [TAction.startCb, TAction.speakAct reflectionPrompt,
        TAction.listenAct RecContext.reflectionCtx]) := by
  have h := c9_amended_empty_stack_reaches_reflection
    { userId := some "user1" }
    { httpOk := true, status := 200, bodySuccess := some true, habit_stack := some {} }
    {} initialTrackerState rfl rfl rfl rfl rfl rfl
  simpa using h

end Captain
